import Mathlib

/-!
Shallow embedding of the kiro-referee-engine comparison service
(`src/models.py`, `src/analyzer.py`, `src/main.py`) and proofs about it.

Python values flowing out of the JSON decoder are modelled by `PyVal`;
Python exceptions by `Except String`.  Strings are modelled by Lean
`String` (a list of unicode scalar values, matching Python `str` for the
ASCII fragment the service manipulates).
-/

/-- A Python/JSON value as produced by the JSON decoder: `None`, booleans,
integers, strings, lists and dicts (dicts as association lists in insertion
order, matching Python 3.7+ dict semantics). -/
inductive PyVal where
  | null : PyVal
  | bool : Bool → PyVal
  | num : Int → PyVal
  | str : String → PyVal
  | arr : List PyVal → PyVal
  | obj : List (String × PyVal) → PyVal

/-- Python whitespace characters recognised by `str.strip()`:
space, tab, linefeed, carriage return, vertical tab, form feed. -/
def pyIsSpace (c : Char) : Bool :=
  c.toNat = 32 || c.toNat = 9 || c.toNat = 10 || c.toNat = 13 ||
  c.toNat = 11 || c.toNat = 12

/-- Python `str.strip()` on a character list: drop leading and trailing
whitespace. -/
def pyStripL (cs : List Char) : List Char :=
  ((cs.dropWhile pyIsSpace).reverse.dropWhile pyIsSpace).reverse

/-- Python `str.strip()`. -/
def pyStrip (s : String) : String :=
  String.mk (pyStripL s.data)

/-- Python `str.lower()` restricted to ASCII letters (the only case the
service's inputs exercise): map each `A`-`Z` to `a`-`z`. -/
def pyToLower (c : Char) : Char :=
  if 65 ≤ c.toNat ∧ c.toNat ≤ 90 then Char.ofNat (c.toNat + 32) else c

/-- Python `str.lower()` on a whole string (ASCII model). -/
def pyLower (s : String) : String :=
  String.mk (s.data.map pyToLower)

/-- Does the character list `hay` start with `needle`? -/
def listStartsWith : List Char → List Char → Bool
  | _, [] => true
  | [], _ :: _ => false
  | a :: as, b :: bs => a = b && listStartsWith as bs

/-- Python substring containment `needle in hay` on character lists. -/
def pyContainsL (hay needle : List Char) : Bool :=
  listStartsWith hay needle ||
    match hay with
    | [] => false
    | _ :: rest => pyContainsL rest needle

/-- Python substring containment `needle in hay`. -/
def pyContains (hay needle : String) : Bool :=
  pyContainsL hay.data needle.data

/-- Whether an `Except` computation succeeded (Python: no exception was
raised). -/
def exceptOk : Except String α → Bool
  | .ok _ => true
  | .error _ => false

/-! ## Request validation (`src/models.py`, `ComparisonRequest`)

Pydantic v1 validates each field independently and aggregates the errors
across fields; within one field, the first failing check raises and stops
that field's validation.  Each field validator below is a direct
translation of the corresponding `@validator` in `models.py`; the
`min_items` constraints declared on the `Field(...)` come first, as
pydantic's built-in list validation runs before custom validators. -/

/-- A raw (already JSON-shaped) comparison request, before validation. -/
structure RawRequest where
  question : String
  options : List String
  criteria : List String
  context : Option String
deriving DecidableEq, Repr

/-- A validated comparison request (`ComparisonRequest` after all
validators ran). -/
structure ComparisonRequest where
  question : String
  options : List String
  criteria : List String
  context : Option String
deriving DecidableEq, Repr

/-- Validator `question_must_not_be_empty` from `models.py`: reject when the
stripped question is empty, otherwise return the stripped question. -/
def validateQuestionField (v : String) : Except String String :=
  if pyStrip v = "" then .error "Question cannot be empty"
  else .ok (pyStrip v)

/-- Python set-size duplicate test `len(set(l)) != len(l)`, via `dedup`. -/
def hasDuplicates (l : List String) : Bool :=
  decide (l.dedup.length ≠ l.length)

/-- Validator `options_must_be_unique_and_non_empty` from `models.py`, preceded by
the `min_items=2` constraint of the `options` field declaration. -/
def validateOptionsField (v : List String) : Except String (List String) :=
  if v.length < 2 then .error "ensure this value has at least 2 items"
  else if v.length < 2 then .error "At least 2 options are required"
  else if v.any (fun o => pyStrip o = "") then .error "Options cannot be empty"
  else if hasDuplicates (v.map (fun o => pyStrip (pyLower o))) then
    .error "Options must be unique"
  else .ok (v.map pyStrip)

/-- Validator `criteria_must_be_unique_and_non_empty` from `models.py`, preceded by
the `min_items=1` constraint of the `criteria` field declaration. -/
def validateCriteriaField (v : List String) : Except String (List String) :=
  if v.length < 1 then .error "ensure this value has at least 1 items"
  else if v.length < 1 then .error "At least 1 criterion is required"
  else if v.any (fun c => pyStrip c = "") then .error "Criteria cannot be empty"
  else if hasDuplicates (v.map (fun c => pyStrip (pyLower c))) then
    .error "Criteria must be unique"
  else .ok (v.map pyStrip)

/-- The error list a field contributes: empty on success, a singleton
`(field name, message)` on failure (pydantic records one error per failing
validator run, and a field's validation stops at its first failure). -/
def fieldErrors (field : String) (r : Except String α) : List (String × String) :=
  match r with
  | .ok _ => []
  | .error m => [(field, m)]

/-- Pydantic v1 validation of a `ComparisonRequest`: validate every field,
aggregate the per-field errors in field declaration order; succeed with
the normalized request only when no field failed.  `context` has no
validator and passes through unchanged. -/
def validateComparisonRequest (r : RawRequest) :
    Except (List (String × String)) ComparisonRequest :=
  let qr := validateQuestionField r.question
  let or := validateOptionsField r.options
  let cr := validateCriteriaField r.criteria
  let errs := fieldErrors "question" qr ++ fieldErrors "options" or ++
    fieldErrors "criteria" cr
  match qr, or, cr with
  | .ok q, .ok o, .ok c =>
      .ok { question := q, options := o, criteria := c, context := r.context }
  | _, _, _ => .error errs

/-- Handler `validation_exception_handler` from `main.py`: format each recorded
violation as `"<field>: <message>"`; those strings are the `details` of
the 422 response body. -/
def validationDetails (errs : List (String × String)) : List String :=
  errs.map (fun e => e.1 ++ ": " ++ e.2)

/-! ## Response models (`src/models.py`, `OptionAnalysis` and
`ComparisonResponse`)

Pydantic coerces a value into a `str` field (numbers and booleans are
stringified, `None`/lists/dicts are rejected), then runs the custom
validators declared on the model.  Constructing a model is fallible:
Python raises `ValidationError`, modelled by `Except String`. -/

/-- Analysis results for a single option, after validation. -/
structure OptionAnalysis where
  strengths : List String
  weaknesses : List String
  explanation : String
deriving DecidableEq, Repr

/-- Complete comparison response, after validation.  The Python
`Dict[str, OptionAnalysis]` is modelled as an association list in
insertion order. -/
structure ComparisonResponse where
  question : String
  analysis : List (String × OptionAnalysis)
  tradeOffs : String
  contextNotes : Option String
deriving DecidableEq, Repr

/-- Pydantic v1 coercion of a value into a `str` field. -/
def strFieldValidator : PyVal → Except String String
  | .str s => .ok s
  | .num n => .ok (toString n)
  | .bool b => .ok (if b then "True" else "False")
  | .null => .error "none is not an allowed value"
  | .arr _ => .error "str type expected"
  | .obj _ => .error "str type expected"

/-- Pydantic v1 coercion of a value into an `Optional[str]` field. -/
def optionalStrFieldValidator : PyVal → Except String (Option String)
  | .null => .ok none
  | v => (strFieldValidator v).map some

/-- Element-wise pydantic coercion of a `List[str]` field's value (the
first failing element aborts, as raising does in Python). -/
def coerceStrList : List PyVal → Except String (List String)
  | [] => .ok []
  | v :: rest =>
      match strFieldValidator v with
      | .error e => .error e
      | .ok s =>
          match coerceStrList rest with
          | .error e => .error e
          | .ok tail => .ok (s :: tail)

/-- A `List[str]` field with the `..._must_not_be_empty` validators of
`OptionAnalysis`: coerce each element, reject an empty list, reject any
element that is empty after stripping, return the stripped elements. -/
def validateStrListField (emptyMsg itemMsg : String) (v : List PyVal) :
    Except String (List String) :=
  match coerceStrList v with
  | .error e => .error e
  | .ok coerced =>
      if coerced.isEmpty then .error emptyMsg
      else if coerced.any (fun s => pyStrip s = "") then .error itemMsg
      else .ok (coerced.map pyStrip)

/-- Constructing an `OptionAnalysis` (pydantic validation of all three
fields, in declaration order). -/
def mkOptionAnalysis (strengths weaknesses : List PyVal) (explanation : PyVal) :
    Except String OptionAnalysis :=
  match validateStrListField "Strengths list cannot be empty"
      "Individual strengths cannot be empty" strengths with
  | .error e => .error e
  | .ok s =>
      match validateStrListField "Weaknesses list cannot be empty"
          "Individual weaknesses cannot be empty" weaknesses with
      | .error e => .error e
      | .ok w =>
          match strFieldValidator explanation with
          | .error e => .error e
          | .ok e0 =>
              if pyStrip e0 = "" then .error "Explanation cannot be empty"
              else .ok { strengths := s, weaknesses := w, explanation := pyStrip e0 }

/-- Constructing a `ComparisonResponse` (pydantic validation of all
fields: `analysis` must be non-empty, `trade_offs` non-empty after
stripping, `context_notes` an optional string). -/
def mkComparisonResponse (question : String)
    (analysis : List (String × OptionAnalysis)) (tradeOffs : PyVal)
    (contextNotes : PyVal) : Except String ComparisonResponse :=
  if analysis.isEmpty then .error "Analysis cannot be empty"
  else
    match strFieldValidator tradeOffs with
    | .error e => .error e
    | .ok t =>
        if pyStrip t = "" then .error "Trade-offs analysis cannot be empty"
        else
          match optionalStrFieldValidator contextNotes with
          | .error e => .error e
          | .ok cn =>
              .ok { question := question, analysis := analysis,
                    tradeOffs := pyStrip t, contextNotes := cn }

/-! ## Raw-text parsing (`src/analyzer.py`, `_parse_llm_response`)

The decoder `json.loads` is an external collaborator (Python standard
library); `parse_llm_response` is parameterized by it as a function
returning `none` on any decode failure (in Python, a `JSONDecodeError`,
which the source's `except` clause catches). -/

/-- The opening brace character. -/
def lbraceChar : Char := '\x7b'

/-- The closing brace character. -/
def rbraceChar : Char := '\x7d'

/-- Python `str.find(c)`: index of the first occurrence, `None` standing
for Python's `-1`. -/
def pyFindChar (cs : List Char) (c : Char) : Option Nat :=
  cs.findIdx? (fun x => x = c)

/-- Python `str.rfind(c)`: index of the last occurrence, `None` standing
for Python's `-1`. -/
def pyRFindChar (cs : List Char) (c : Char) : Option Nat :=
  match (cs.reverse).findIdx? (fun x => x = c) with
  | some k => some (cs.length - 1 - k)
  | none => none

/-- The `json_text.replace` cleanup mapping each linefeed to a space. -/
def replaceNewlines (cs : List Char) : List Char :=
  cs.map (fun c => if c = '\n' then ' ' else c)

/-- The `json_text.replace` cleanup doubling each backslash. -/
def escBackslashes : List Char → List Char
  | [] => []
  | c :: rest =>
      if c = '\\' then '\\' :: '\\' :: escBackslashes rest
      else c :: escBackslashes rest

/-- The fixed fallback structure returned when no JSON could be recovered
from the raw backend text. -/
def fallbackParse : PyVal :=
  .obj [("options", .obj []),
        ("trade_offs", .str "Analysis parsing failed. Please try again."),
        ("context_notes", .null)]

/-- Function `_parse_llm_response` from `analyzer.py`: slice the raw text from the
first opening brace through the last closing brace (Python slice
semantics: an empty slice when the end does not exceed the start), clean
the slice up (newlines to spaces, backslashes doubled), decode it; on any
failure (no braces found, or the decoder rejects the candidate) return
the fixed fallback structure. -/
def parse_llm_response (loads : String → Option PyVal)
    (responseText : String) : PyVal :=
  match pyFindChar responseText.data lbraceChar,
      pyRFindChar responseText.data rbraceChar with
  | some startIdx, some lastIdx =>
      match loads (String.mk (escBackslashes (replaceNewlines
          ((responseText.data.drop startIdx).take (lastIdx + 1 - startIdx))))) with
      | some v => v
      | none => fallbackParse
  | _, _ => fallbackParse

/-! ## A model of the external JSON decoder

`json.loads` is the Python standard library, not repository code; the
decoder below models it on the JSON fragment this development needs
(objects, arrays, strings with simple escapes, integers, booleans,
null).  It returns `none` on every input it cannot decode — in
particular on the empty string, on inputs with trailing garbage, and on
numbers with fractional or exponent parts (unsupported in the model). -/

/-- JSON insignificant whitespace. -/
def jsonIsWs (c : Char) : Bool :=
  c = ' ' || c = '\t' || c = '\n' || c = '\r'

/-- Skip JSON whitespace. -/
def jsonSkipWs (cs : List Char) : List Char :=
  cs.dropWhile jsonIsWs

/-- Decode a two-character JSON escape (the character after the
backslash). -/
def jsonEscape (c : Char) : Option Char :=
  if c = '"' then some '"'
  else if c = '\\' then some '\\'
  else if c = '/' then some '/'
  else if c = 'n' then some '\n'
  else if c = 't' then some '\t'
  else if c = 'r' then some '\r'
  else if c = 'b' then some (Char.ofNat 8)
  else if c = 'f' then some (Char.ofNat 12)
  else none

/-- Parse the body of a JSON string (the opening quote already consumed);
return the content and the remainder after the closing quote. -/
def jsonStringAux : List Char → Option (List Char × List Char)
  | [] => none
  | '"' :: rest => some ([], rest)
  | '\\' :: rest =>
      match rest with
      | [] => none
      | e :: rest2 =>
          match jsonEscape e with
          | some c => (jsonStringAux rest2).map (fun p => (c :: p.1, p.2))
          | none => none
  | c :: rest => (jsonStringAux rest).map (fun p => (c :: p.1, p.2))

/-- Digits to a natural number. -/
def digitsToNat (ds : List Char) : Nat :=
  ds.foldl (fun a c => a * 10 + (c.toNat - 48)) 0

/-- Parse an unsigned JSON integer; reject fractional/exponent parts. -/
def jsonNumberNat (cs : List Char) : Option (Nat × List Char) :=
  let ds := cs.takeWhile Char.isDigit
  let rest := cs.dropWhile Char.isDigit
  if ds.isEmpty then none
  else
    match rest with
    | '.' :: _ => none
    | 'e' :: _ => none
    | 'E' :: _ => none
    | _ => some (digitsToNat ds, rest)

/-- Parse a JSON integer with optional sign. -/
def jsonNumber (cs : List Char) : Option (Int × List Char) :=
  match cs with
  | '-' :: rest => (jsonNumberNat rest).map (fun p => (-(p.1 : Int), p.2))
  | _ => (jsonNumberNat cs).map (fun p => ((p.1 : Int), p.2))

mutual

/-- Parse one JSON value (fuel-bounded recursive descent). -/
def jsonValue : Nat → List Char → Option (PyVal × List Char)
  | 0, _ => none
  | Nat.succ fuel, cs =>
      match jsonSkipWs cs with
      | '"' :: rest => (jsonStringAux rest).map (fun p => (.str (String.mk p.1), p.2))
      | 't' :: 'r' :: 'u' :: 'e' :: rest => some (.bool true, rest)
      | 'f' :: 'a' :: 'l' :: 's' :: 'e' :: rest => some (.bool false, rest)
      | 'n' :: 'u' :: 'l' :: 'l' :: rest => some (.null, rest)
      | c :: rest =>
          if c = lbraceChar then
            match jsonSkipWs rest with
            | c2 :: rest2 =>
                if c2 = rbraceChar then some (.obj [], rest2)
                else (jsonMembers fuel (c2 :: rest2)).map (fun p => (.obj p.1, p.2))
            | [] => none
          else if c = '[' then
            match jsonSkipWs rest with
            | ']' :: rest2 => some (.arr [], rest2)
            | cs2 => (jsonItems fuel cs2).map (fun p => (.arr p.1, p.2))
          else (jsonNumber (c :: rest)).map (fun p => (.num p.1, p.2))
      | [] => none

/-- Parse one or more `"key": value` members followed by `,` more members
or the closing brace. -/
def jsonMembers : Nat → List Char → Option (List (String × PyVal) × List Char)
  | 0, _ => none
  | Nat.succ fuel, cs =>
      match jsonSkipWs cs with
      | '"' :: rest =>
          match jsonStringAux rest with
          | none => none
          | some (key, r1) =>
              match jsonSkipWs r1 with
              | ':' :: r2 =>
                  match jsonValue fuel r2 with
                  | none => none
                  | some (v, r3) =>
                      match jsonSkipWs r3 with
                      | ',' :: r4 =>
                          (jsonMembers fuel r4).map
                            (fun p => ((String.mk key, v) :: p.1, p.2))
                      | c :: r4 =>
                          if c = rbraceChar then
                            some ([(String.mk key, v)], r4)
                          else none
                      | [] => none
              | _ => none
      | _ => none

/-- Parse one or more array items followed by `,` more items or `]`. -/
def jsonItems : Nat → List Char → Option (List PyVal × List Char)
  | 0, _ => none
  | Nat.succ fuel, cs =>
      match jsonValue fuel cs with
      | none => none
      | some (v, r1) =>
          match jsonSkipWs r1 with
          | ',' :: r2 => (jsonItems fuel r2).map (fun p => (v :: p.1, p.2))
          | ']' :: r2 => some ([v], r2)
          | _ => none

end

/-- The JSON decoder model: parse one value, require only whitespace to
remain. -/
def jsonLoads (s : String) : Option PyVal :=
  match jsonValue (s.data.length + 1) s.data with
  | some (v, rest) => if (jsonSkipWs rest).isEmpty then some v else none
  | none => none

/-! ## Response assembly (`src/analyzer.py`, `_build_comparison_response`) -/

/-- Last-wins association-list lookup (Python dict semantics when the
decoder reports duplicate keys). -/
def pyLookup (kvs : List (String × PyVal)) (key : String) : Option PyVal :=
  match kvs.reverse.find? (fun kv => kv.1 = key) with
  | some kv => some kv.2
  | none => none

/-- Python `d.get(key, default)`: raises `AttributeError` when `d` is not
a dict (the source never guards against that). -/
def pyGet (d : PyVal) (key : String) (dflt : PyVal) : Except String PyVal :=
  match d with
  | .obj kvs => .ok ((pyLookup kvs key).getD dflt)
  | _ => .error "AttributeError: object has no attribute get"

/-- Fallback strengths entry used when the decoded analysis lacks one. -/
def strongFallback : String := "Strong capabilities in key areas"

/-- Fallback weaknesses entry used when the decoded analysis lacks one. -/
def weakFallback : String := "May require additional consideration"

/-- Fallback explanation referencing the option name. -/
def explanationFallback (option : String) : String :=
  option ++ " offers a balanced approach with distinct advantages for specific use cases."

/-- Fallback overall trade-offs sentence. -/
def tradeOffsFallback : String :=
  "Each option offers distinct advantages. Consider your specific requirements and constraints when making a decision."

/-- The `if not isinstance(x, list) or not x` guard: replace anything that
is not a non-empty list by the fallback list. -/
def ensureList (v : PyVal) (fallback : List PyVal) : List PyVal :=
  match v with
  | .arr [] => fallback
  | .arr xs => xs
  | _ => fallback

/-- Per-option assembly step of `_build_comparison_response`: look the
option up in the decoded `options` value, apply the strengths/weaknesses/
explanation fallbacks, construct the `OptionAnalysis`. -/
def buildOptionAnalysis (optionsData : PyVal) (option : String) :
    Except String OptionAnalysis :=
  match pyGet optionsData option (.obj []) with
  | .error e => .error e
  | .ok optionData =>
      match pyGet optionData "strengths" (.arr [.str strongFallback]) with
      | .error e => .error e
      | .ok strengths0 =>
          match pyGet optionData "weaknesses" (.arr [.str weakFallback]) with
          | .error e => .error e
          | .ok weaknesses0 =>
              match pyGet optionData "explanation" (.str (explanationFallback option)) with
              | .error e => .error e
              | .ok explanation =>
                  mkOptionAnalysis (ensureList strengths0 [.str strongFallback])
                    (ensureList weaknesses0 [.str weakFallback]) explanation

/-- The `context_notes == "null" or context_notes == "None"`
normalization. -/
def normalizeContextNotes (v : PyVal) : PyVal :=
  match v with
  | .str s => if s = "null" ∨ s = "None" then .null else .str s
  | w => w

/-- The `for option in options` loop of `_build_comparison_response`:
assemble the per-option entries in request order, raising at the first
failure as Python does. -/
def buildAnalysisList (optionsData : PyVal) :
    List String → Except String (List (String × OptionAnalysis))
  | [] => .ok []
  | option :: rest =>
      match buildOptionAnalysis optionsData option with
      | .error e => .error e
      | .ok oa =>
          match buildAnalysisList optionsData rest with
          | .error e => .error e
          | .ok tail => .ok ((option, oa) :: tail)

/-- Function `_build_comparison_response` from `analyzer.py`. -/
def build_comparison_response (question : String) (options : List String)
    (analysisData : PyVal) (context : Option String) :
    Except String ComparisonResponse :=
  match pyGet analysisData "options" (.obj []) with
  | .error e => .error e
  | .ok optionsData =>
      match buildAnalysisList optionsData options with
      | .error e => .error e
      | .ok analysis =>
          match pyGet analysisData "trade_offs" (.str tradeOffsFallback) with
          | .error e => .error e
          | .ok tradeOffs =>
              match (match context with
                     | some _ => pyGet analysisData "context_notes" .null
                     | none => .ok PyVal.null) with
              | .error e => .error e
              | .ok contextNotes0 =>
                  mkComparisonResponse question analysis tradeOffs
                    (normalizeContextNotes contextNotes0)

/-- The response normalizer: parse the raw backend text, then assemble
the response (the last two steps of `analyze_options`). -/
def normalize_response (loads : String → Option PyVal) (question : String)
    (options : List String) (context : Option String) (rawText : String) :
    Except String ComparisonResponse :=
  build_comparison_response question options
    (parse_llm_response loads rawText) context

/-! ## Backend call with retry (`src/analyzer.py`, `_get_llm_response`)

The backend is an external collaborator, modelled as a function from the
attempt number to an outcome.  Besides the result, the model returns the
number of attempts made and the trace of back-off delays slept (in
seconds, exact rationals standing for the Python floats, whose values
here are exactly representable). -/

/-- The final error message raised once retries are exhausted. -/
def llmFailureMessage (maxRetries : Nat) (e : String) : String :=
  "LLM analysis failed after " ++ toString maxRetries ++ " attempts: " ++ e

/-- The retry loop of `_get_llm_response`: `for attempt in
range(max_retries)`, returning the first success, re-raising the last
error on the final attempt, and sleeping `retry_delay * 2 ** attempt`
between attempts. -/
def get_llm_response_loop (backend : Nat → Except String String)
    (maxRetries : Nat) (retryDelay : ℚ) :
    Nat → Nat → List ℚ → Except String String × Nat × List ℚ
  | 0, attempt, delays =>
      (.error "Unexpected error in LLM response", attempt, delays)
  | Nat.succ left, attempt, delays =>
      match backend attempt with
      | .ok r => (.ok r, attempt + 1, delays)
      | .error e =>
          if attempt = maxRetries - 1 then
            (.error (llmFailureMessage maxRetries e), attempt + 1, delays)
          else
            get_llm_response_loop backend maxRetries retryDelay left
              (attempt + 1) (delays ++ [retryDelay * 2 ^ attempt])

/-- Function `_get_llm_response` with the constants set in `LLMAnalyzer.__init__`:
`max_retries = 3`, `retry_delay = 1.0`. -/
def get_llm_response (backend : Nat → Except String String) :
    Except String String × Nat × List ℚ :=
  get_llm_response_loop backend 3 1 3 0 []

/-! ## The `/compare` endpoint (`src/main.py`) -/

/-- Which backend variant is active. -/
inductive AnalyzerType where
  | llm : AnalyzerType
  | mock : AnalyzerType
deriving DecidableEq, Repr

/-- Outcome of a `/compare` call: a 200 with a response body, or an HTTP
error status with a detail message. -/
inductive CompareOutcome where
  | success : ComparisonResponse → CompareOutcome
  | failure : Nat → String → CompareOutcome
deriving DecidableEq, Repr

/-- Detail message of the 429 branch. -/
def quotaDetail : String :=
  "OpenAI API quota exceeded. Please check your billing and usage limits at https://platform.openai.com/account/billing"

/-- Detail message of the 401 branch. -/
def authDetail : String :=
  "Invalid API key. Please check your OpenAI API key configuration."

/-- Detail message of the 400 branch. -/
def modelDetail : String :=
  "Model not available. Your API key may not have access to the requested model."

/-- The live-variant error classification of `compare`: substring checks
on the lower-cased error message, in source order. -/
def classify_llm_error (msg : String) : Nat × String :=
  let lower := pyLower msg
  if pyContains lower "rate limit" || pyContains lower "quota" then
    (429, quotaDetail)
  else if pyContains lower "api key" || pyContains lower "authentication" then
    (401, authDetail)
  else if pyContains lower "model" && pyContains lower "not found" then
    (400, modelDetail)
  else (500, "LLM service error: " ++ msg)

/-- The `try/except` of the `compare` endpoint around the analyzer call:
a successful analysis is returned as-is; an error is classified when the
live variant is active and surfaces as a generic analysis error under the
stub variant. -/
def compare_endpoint (atype : AnalyzerType)
    (result : Except String ComparisonResponse) : CompareOutcome :=
  match result with
  | .ok r => .success r
  | .error msg =>
      match atype with
      | .llm =>
          let c := classify_llm_error msg
          .failure c.1 c.2
      | .mock => .failure 500 ("Analysis error: " ++ msg)

/-- HTTP status of an outcome (FastAPI returns 200 for a plain value). -/
def outcomeStatus : CompareOutcome → Nat
  | .success _ => 200
  | .failure s _ => s

/-- Method `analyze_options` of the live analyzer: backend call with retry, then
parse, then assembly.  (The prompt built from question/options/criteria
only flows to the backend, which is abstract here.) -/
def analyze_options_llm (loads : String → Option PyVal)
    (backend : Nat → Except String String) (question : String)
    (options : List String) (context : Option String) :
    Except String ComparisonResponse :=
  match (get_llm_response backend).1 with
  | .error e => .error e
  | .ok raw => build_comparison_response question options
      (parse_llm_response loads raw) context

/-- The placeholder per-option entry produced when the decoded analysis
holds nothing for an option (all three fallbacks fire). -/
def fallbackEntry (option : String) : OptionAnalysis :=
  { strengths := [strongFallback], weaknesses := [weakFallback],
    explanation := pyStrip (explanationFallback option) }

/-- The concrete response produced by the normalizer for options
`["A", "B"]` when the raw text holds no recoverable structure. -/
def c1Resp : ComparisonResponse :=
  { question := "q",
    analysis := [("A", fallbackEntry "A"), ("B", fallbackEntry "B")],
    tradeOffs := "Analysis parsing failed. Please try again.",
    contextNotes := none }

/-- The concrete response produced for a decoded object whose only key
is a sentinel `context_notes`. -/
def c7Resp : ComparisonResponse :=
  { question := "q",
    analysis := [("A", fallbackEntry "A"), ("B", fallbackEntry "B")],
    tradeOffs := pyStrip tradeOffsFallback,
    contextNotes := none }

/-- Whether a decoded value is a dict (Python `isinstance(x, dict)`). -/
def pyValIsDict : PyVal → Bool
  | .obj _ => true
  | _ => false

/-! ## Helper lemmas -/

/-- The Python set-size duplicate test is exactly non-`Nodup`. -/
theorem hasDuplicates_eq_false_iff (l : List String) :
    hasDuplicates l = false ↔ l.Nodup := by
  unfold hasDuplicates
  simp only [decide_eq_false_iff_not, not_not]
  constructor
  · intro h
    have hsub := l.dedup_sublist
    have heq := hsub.eq_of_length h
    rw [← heq]
    exact l.nodup_dedup
  · intro h
    rw [h.dedup]

/-- Success characterization of the options-field validation pipeline. -/
theorem validateOptionsField_ok_iff (v : List String) (w : List String) :
    validateOptionsField v = .ok w ↔
      (2 ≤ v.length ∧ (∀ o ∈ v, pyStrip o ≠ "") ∧
        (v.map (fun o => pyStrip (pyLower o))).Nodup ∧ w = v.map pyStrip) := by
  by_cases h1 : v.length < 2
  · simp only [validateOptionsField, if_pos h1]
    refine iff_of_false (by simp) ?_
    rintro ⟨h2, -, -, -⟩
    omega
  · by_cases h2 : v.any (fun o => pyStrip o = "") = true
    · simp only [validateOptionsField, if_neg h1, if_pos h2]
      refine iff_of_false (by simp) ?_
      rintro ⟨-, hne, -, -⟩
      obtain ⟨o, ho, hoe⟩ : ∃ o ∈ v, pyStrip o = "" := by simpa using h2
      exact hne o ho hoe
    · by_cases h3 : hasDuplicates (v.map (fun o => pyStrip (pyLower o))) = true
      · simp only [validateOptionsField, if_neg h1, if_neg h2, if_pos h3]
        refine iff_of_false (by simp) ?_
        rintro ⟨-, -, hnodup, -⟩
        rw [← hasDuplicates_eq_false_iff] at hnodup
        rw [h3] at hnodup
        cases hnodup
      · simp only [validateOptionsField, if_neg h1, if_neg h2, if_neg h3]
        constructor
        · intro h
          refine ⟨by omega, ?_,
            (hasDuplicates_eq_false_iff _).mp (by simpa using h3), ?_⟩
          · intro o ho hoe
            exact h2 (by simp only [List.any_eq_true]; exact ⟨o, ho, by simp [hoe]⟩)
          · have := h.symm
            simpa using this
        · rintro ⟨-, -, -, rfl⟩
          rfl

/-- C4: options validation succeeds exactly when the list has at least
two entries, every entry is non-empty after trimming, and no two entries
collide after lower-casing and trimming; the validated list holds the
trimmed entries in their original order. -/
theorem C4_options_validation (v : List String) (w : List String) :
    validateOptionsField v = .ok w ↔
      (2 ≤ v.length ∧ (∀ o ∈ v, pyStrip o ≠ "") ∧
        (v.map (fun o => pyStrip (pyLower o))).Nodup ∧ w = v.map pyStrip) :=
  validateOptionsField_ok_iff v w

/-- C4 witness: a concrete options list that validates, with the trimmed
entries preserved in order. -/
theorem C4_options_validation_witness :
    validateOptionsField ["Stripe API ", " PayPal"] = .ok ["Stripe API", "PayPal"] :=
  (C4_options_validation _ _).mpr (by refine ⟨by decide, ?_, by decide, by decide⟩; decide)

/-- C3 counterexample: the options list `["a", "a", " "]` violates two
distinct validation rules at once (an entry empty after trimming, and a
case-insensitive duplicate pair), yet validation surfaces a single
violation entry — the first one found — not one entry per violation. -/
theorem C3_counterexample :
    pyStrip " " = "" ∧
    ¬ ((["a", "a", " "].map (fun o => pyStrip (pyLower o))).Nodup) ∧
    validateComparisonRequest ⟨"q", ["a", "a", " "], ["c"], none⟩ =
      .error [("options", "Options cannot be empty")] ∧
    validationDetails [("options", "Options cannot be empty")] =
      ["options: Options cannot be empty"] :=
  ⟨by decide, by decide, rfl, rfl⟩

/-- C3 as amended: validation aggregates violations across fields — the
422 details hold exactly one `"<field>: <message>"` entry per failing
field, reporting that field's first violated rule — and every failing
field is represented; within a single field only the first violation
found is reported. -/
theorem C3_per_field_details (r : RawRequest) (errs : List (String × String))
    (h : validateComparisonRequest r = .error errs) :
    (validationDetails errs).length =
      ((if exceptOk (validateQuestionField r.question) then 0 else 1) +
       (if exceptOk (validateOptionsField r.options) then 0 else 1) +
       (if exceptOk (validateCriteriaField r.criteria) then 0 else 1)) ∧
    0 < (validationDetails errs).length ∧
    (∀ m, validateQuestionField r.question = .error m →
      ("question" ++ ": " ++ m) ∈ validationDetails errs) ∧
    (∀ m, validateOptionsField r.options = .error m →
      ("options" ++ ": " ++ m) ∈ validationDetails errs) ∧
    (∀ m, validateCriteriaField r.criteria = .error m →
      ("criteria" ++ ": " ++ m) ∈ validationDetails errs) := by
  unfold validateComparisonRequest at h
  cases hq : validateQuestionField r.question <;>
    cases ho : validateOptionsField r.options <;>
      cases hc : validateCriteriaField r.criteria <;>
        simp only [hq, ho, hc, fieldErrors, List.nil_append, List.append_nil,
          List.cons_append, Except.error.injEq] at h <;>
        cases h <;>
        simp [validationDetails, exceptOk]

/-- C3 witness: a request failing two fields yields exactly two detail
entries, one per failing field. -/
theorem C3_per_field_details_witness :
    (validationDetails [("question", "Question cannot be empty"),
      ("options", "ensure this value has at least 2 items")]).length = 2 ∧
    ("options" ++ ": " ++ "ensure this value has at least 2 items") ∈
      validationDetails [("question", "Question cannot be empty"),
        ("options", "ensure this value has at least 2 items")] := by
  have h := C3_per_field_details ⟨" ", ["only one"], ["c"], none⟩
    [("question", "Question cannot be empty"),
     ("options", "ensure this value has at least 2 items")] rfl
  exact ⟨by rw [h.1]; rfl, h.2.2.2.1 _ rfl⟩

/-- C5: the backend call makes at most 3 attempts; every delay slept
before a retry is the fixed base delay doubled per attempt
(base·2^0, base·2^1, ...), so at most two delays occur; and when all
three attempts fail the call ends in a failed terminal outcome whose
message surfaces the last backend error. -/
theorem C5_retry_policy (backend : Nat → Except String String) :
    (get_llm_response backend).2.1 ≤ 3 ∧
    (get_llm_response backend).2.2 =
      (List.range (get_llm_response backend).2.2.length).map
        (fun i => (1 : ℚ) * 2 ^ i) ∧
    (get_llm_response backend).2.2.length ≤ 2 ∧
    (∀ e0 e1 e2, backend 0 = .error e0 → backend 1 = .error e1 →
      backend 2 = .error e2 →
      get_llm_response backend =
        (.error ("LLM analysis failed after 3 attempts: " ++ e2), 3,
          [(1 : ℚ) * 2 ^ 0, (1 : ℚ) * 2 ^ 1])) := by
  have hmsg : ∀ e : String,
      llmFailureMessage 3 e = "LLM analysis failed after 3 attempts: " ++ e := by
    intro e
    show ("LLM analysis failed after " ++ toString 3 ++ " attempts: ") ++ e = _
    have h : ("LLM analysis failed after " ++ toString 3 ++ " attempts: " : String) =
        "LLM analysis failed after 3 attempts: " := by decide
    rw [h]
  cases h0 : backend 0 with
  | ok r =>
    have hg : get_llm_response backend = (.ok r, 1, []) := by
      simp [get_llm_response, get_llm_response_loop, h0]
    refine ⟨by simp [hg], by rw [hg]; rfl, by simp [hg], ?_⟩
    intro e0 e1 e2 he0 _ _
    cases he0
  | error e0v =>
    cases h1 : backend 1 with
    | ok r =>
      have hg : get_llm_response backend = (.ok r, 2, [(1 : ℚ) * 2 ^ 0]) := by
        simp [get_llm_response, get_llm_response_loop, h0, h1]
      refine ⟨by simp [hg], ?_, by simp [hg], ?_⟩
      · rw [hg]
        norm_num [List.range_succ, List.range_zero]
      · intro e0 e1 e2 _ he1 _
        cases he1
    | error e1v =>
      cases h2 : backend 2 with
      | ok r =>
        have hg : get_llm_response backend =
            (.ok r, 3, [(1 : ℚ) * 2 ^ 0, (1 : ℚ) * 2 ^ 1]) := by
          simp [get_llm_response, get_llm_response_loop, h0, h1, h2]
        refine ⟨by simp [hg], ?_, by simp [hg], ?_⟩
        · rw [hg]
          norm_num [List.range_succ, List.range_zero]
        · intro e0 e1 e2 _ _ he2
          cases he2
      | error e2v =>
        have hg : get_llm_response backend =
            (.error (llmFailureMessage 3 e2v), 3,
              [(1 : ℚ) * 2 ^ 0, (1 : ℚ) * 2 ^ 1]) := by
          simp [get_llm_response, get_llm_response_loop, h0, h1, h2]
        refine ⟨by simp [hg], ?_, by simp [hg], ?_⟩
        · rw [hg]
          norm_num [List.range_succ, List.range_zero]
        · intro e0 e1 e2 he0 he1 he2
          injection he2 with he2
          subst he2
          rw [hg, hmsg]

/-- C5 witness: with a backend failing on every attempt, exactly three
attempts are made, the delays are base and 2·base, and the terminal error
surfaces the last backend message. -/
theorem C5_retry_policy_witness :
    get_llm_response (fun n => .error (toString n)) =
      (.error ("LLM analysis failed after 3 attempts: " ++ "2"), 3,
        [(1 : ℚ) * 2 ^ 0, (1 : ℚ) * 2 ^ 1]) :=
  (C5_retry_policy (fun n => .error (toString n))).2.2.2 "0" "1" "2" rfl rfl rfl

/-- C6: under the live backend variant, the error text is classified by
substring into distinct caller-facing statuses — quota/rate-limit 429,
api-key/authentication 401, model-plus-not-found 400, anything else 500
with the LLM service detail — while under the stub variant every error
surfaces as a generic 500 analysis error, never reclassified. -/
theorem C6_error_classification :
    (∀ msg, (pyContains (pyLower msg) "rate limit" = true ∨
        pyContains (pyLower msg) "quota" = true) →
      compare_endpoint .llm (.error msg) = .failure 429 quotaDetail) ∧
    (∀ msg, pyContains (pyLower msg) "rate limit" = false →
      pyContains (pyLower msg) "quota" = false →
      (pyContains (pyLower msg) "api key" = true ∨
        pyContains (pyLower msg) "authentication" = true) →
      compare_endpoint .llm (.error msg) = .failure 401 authDetail) ∧
    (∀ msg, pyContains (pyLower msg) "rate limit" = false →
      pyContains (pyLower msg) "quota" = false →
      pyContains (pyLower msg) "api key" = false →
      pyContains (pyLower msg) "authentication" = false →
      pyContains (pyLower msg) "model" = true →
      pyContains (pyLower msg) "not found" = true →
      compare_endpoint .llm (.error msg) = .failure 400 modelDetail) ∧
    (∀ msg, pyContains (pyLower msg) "rate limit" = false →
      pyContains (pyLower msg) "quota" = false →
      pyContains (pyLower msg) "api key" = false →
      pyContains (pyLower msg) "authentication" = false →
      (pyContains (pyLower msg) "model" = false ∨
        pyContains (pyLower msg) "not found" = false) →
      compare_endpoint .llm (.error msg) =
        .failure 500 ("LLM service error: " ++ msg)) ∧
    (∀ msg, compare_endpoint .mock (.error msg) =
      .failure 500 ("Analysis error: " ++ msg)) := by
  refine ⟨?_, ?_, ?_, ?_, ?_⟩
  · intro msg h
    rcases h with h | h <;> simp [compare_endpoint, classify_llm_error, h]
  · intro msg h1 h2 h
    rcases h with h | h <;>
      simp [compare_endpoint, classify_llm_error, h1, h2, h]
  · intro msg h1 h2 h3 h4 h5 h6
    simp [compare_endpoint, classify_llm_error, h1, h2, h3, h4, h5, h6]
  · intro msg h1 h2 h3 h4 h
    rcases h with h | h <;>
      simp [compare_endpoint, classify_llm_error, h1, h2, h3, h4, h]
  · intro msg
    rfl

/-- C6 witness: one concrete message per category, plus a stub-variant
error that is not reclassified. -/
theorem C6_error_classification_witness :
    compare_endpoint .llm (.error "Rate limit exceeded") = .failure 429 quotaDetail ∧
    compare_endpoint .llm (.error "Invalid API key supplied") = .failure 401 authDetail ∧
    compare_endpoint .llm (.error "The model sonar was not found") = .failure 400 modelDetail ∧
    compare_endpoint .llm (.error "connection reset") =
      .failure 500 ("LLM service error: " ++ "connection reset") ∧
    compare_endpoint .mock (.error "connection reset") =
      .failure 500 ("Analysis error: " ++ "connection reset") :=
  ⟨C6_error_classification.1 _ (Or.inl (by decide)),
   C6_error_classification.2.1 _ (by decide) (by decide) (Or.inl (by decide)),
   C6_error_classification.2.2.1 _ (by decide) (by decide) (by decide) (by decide)
     (by decide) (by decide),
   C6_error_classification.2.2.2.1 _ (by decide) (by decide) (by decide) (by decide)
     (Or.inl (by decide)),
   C6_error_classification.2.2.2.2 _⟩

/-- C10: the substring checks run in a fixed priority order — any message
whose lower-cased text contains "rate limit" or "quota" yields 429 with
no further conditions, even when authentication or model substrings are
also present; and an authentication match yields 401 whenever the
rate-limit/quota check did not fire, even when the model substrings are
present. -/
theorem C10_classification_priority :
    (∀ msg, (pyContains (pyLower msg) "rate limit" = true ∨
        pyContains (pyLower msg) "quota" = true) →
      outcomeStatus (compare_endpoint .llm (.error msg)) = 429) ∧
    (∀ msg, pyContains (pyLower msg) "rate limit" = false →
      pyContains (pyLower msg) "quota" = false →
      (pyContains (pyLower msg) "api key" = true ∨
        pyContains (pyLower msg) "authentication" = true) →
      outcomeStatus (compare_endpoint .llm (.error msg)) = 401) := by
  constructor
  · intro msg h
    rcases h with h | h <;>
      simp [compare_endpoint, classify_llm_error, outcomeStatus, h]
  · intro msg h1 h2 h
    rcases h with h | h <;>
      simp [compare_endpoint, classify_llm_error, outcomeStatus, h1, h2, h]

/-- C10 witness: a message matching all three categories is classified
429, and a message matching both the authentication and model categories
is classified 401. -/
theorem C10_classification_priority_witness :
    outcomeStatus (compare_endpoint .llm
      (.error "Quota hit: api key authentication failed, model not found")) = 429 ∧
    outcomeStatus (compare_endpoint .llm
      (.error "api key authentication failed, model not found")) = 401 :=
  ⟨C10_classification_priority.1 _ (Or.inr (by decide)),
   C10_classification_priority.2 _ (by decide) (by decide) (Or.inl (by decide))⟩

/-- A validated string-list field is never empty. -/
theorem validateStrListField_ok_ne_nil {em im : String} {v : List PyVal}
    {out : List String} (h : validateStrListField em im v = .ok out) :
    out ≠ [] := by
  unfold validateStrListField at h
  split at h
  · cases h
  · rename_i coerced hc
    split at h
    · cases h
    · split at h
      · cases h
      · rename_i hne _
        injection h with h
        subst h
        intro hcontra
        exact hne (by simpa [List.isEmpty_iff] using List.map_eq_nil_iff.mp hcontra)

/-- A successfully constructed `OptionAnalysis` has non-empty strengths,
non-empty weaknesses and a non-empty explanation. -/
theorem mkOptionAnalysis_ok {s w : List PyVal} {e : PyVal} {oa : OptionAnalysis}
    (h : mkOptionAnalysis s w e = .ok oa) :
    oa.strengths ≠ [] ∧ oa.weaknesses ≠ [] ∧ oa.explanation ≠ "" := by
  unfold mkOptionAnalysis at h
  split at h
  · cases h
  · rename_i s' hs
    split at h
    · cases h
    · rename_i w' hw
      split at h
      · cases h
      · split at h
        · cases h
        · rename_i e0 _ hstrip
          injection h with h
          subst h
          exact ⟨validateStrListField_ok_ne_nil hs,
            validateStrListField_ok_ne_nil hw, hstrip⟩

/-- Success inversion for `mkComparisonResponse`: the analysis passes
through unchanged, the trade-offs string is non-empty, and the context
notes are the validated optional string. -/
theorem mkComparisonResponse_ok {q : String}
    {al : List (String × OptionAnalysis)} {t cn : PyVal}
    {resp : ComparisonResponse} (h : mkComparisonResponse q al t cn = .ok resp) :
    resp.question = q ∧ resp.analysis = al ∧ resp.tradeOffs ≠ "" ∧
    optionalStrFieldValidator cn = .ok resp.contextNotes := by
  unfold mkComparisonResponse at h
  split at h
  · cases h
  · split at h
    · cases h
    · rename_i t' ht
      split at h
      · cases h
      · rename_i hstrip
        split at h
        · cases h
        · rename_i cn' hcn
          injection h with h
          subst h
          exact ⟨rfl, rfl, hstrip, hcn⟩

/-- A built `OptionAnalysis` entry satisfies the per-entry guarantees. -/
theorem buildOptionAnalysis_ok {od : PyVal} {option : String}
    {oa : OptionAnalysis} (h : buildOptionAnalysis od option = .ok oa) :
    oa.strengths ≠ [] ∧ oa.weaknesses ≠ [] ∧ oa.explanation ≠ "" := by
  unfold buildOptionAnalysis at h
  split at h
  · cases h
  · split at h
    · cases h
    · split at h
      · cases h
      · split at h
        · cases h
        · exact mkOptionAnalysis_ok h

/-- The assembled analysis list has exactly the requested options as
keys, in request order, and every entry was built successfully. -/
theorem buildAnalysisList_ok {od : PyVal} :
    ∀ {options : List String} {al : List (String × OptionAnalysis)},
    buildAnalysisList od options = .ok al →
    al.map Prod.fst = options ∧
      ∀ p ∈ al, buildOptionAnalysis od p.1 = .ok p.2 := by
  intro options
  induction options with
  | nil =>
    intro al h
    injection h with h
    subst h
    simp
  | cons o rest ih =>
    intro al h
    unfold buildAnalysisList at h
    split at h
    · cases h
    · rename_i oa hoa
      split at h
      · cases h
      · rename_i tail htail
        injection h with h
        subst h
        obtain ⟨h1, h2⟩ := ih htail
        refine ⟨by simp [h1], ?_⟩
        intro p hp
        rcases List.mem_cons.mp hp with rfl | hp
        · exact hoa
        · exact h2 p hp

/-- Full success inversion of `_build_comparison_response`. -/
theorem build_comparison_response_ok {q : String} {options : List String}
    {ad : PyVal} {ctx : Option String} {resp : ComparisonResponse}
    (h : build_comparison_response q options ad ctx = .ok resp) :
    ∃ od al t cn0,
      pyGet ad "options" (.obj []) = .ok od ∧
      buildAnalysisList od options = .ok al ∧
      pyGet ad "trade_offs" (.str tradeOffsFallback) = .ok t ∧
      (match ctx with
       | some _ => pyGet ad "context_notes" .null
       | none => .ok PyVal.null) = .ok cn0 ∧
      mkComparisonResponse q al t (normalizeContextNotes cn0) = .ok resp := by
  unfold build_comparison_response at h
  split at h
  · cases h
  · rename_i od hod
    split at h
    · cases h
    · rename_i al hal
      split at h
      · cases h
      · rename_i t ht
        split at h
        · cases h
        · rename_i cn0 hcn
          exact ⟨od, al, t, cn0, hod, hal, ht, hcn, h⟩

/-- C1 counterexample: for the validated request with options
`["A", "B"]` and the raw backend text whose decoded structure carries a
blank `trade_offs` string, the normalizer does not return a
`ComparisonResponse` — the response model's validation raises. -/
theorem C1_counterexample :
    validateComparisonRequest ⟨"q", ["A", "B"], ["c"], none⟩ =
      .ok ⟨"q", ["A", "B"], ["c"], none⟩ ∧
    jsonLoads "\x7b\"trade_offs\": \" \"\x7d" =
      some (.obj [("trade_offs", .str " ")]) ∧
    exceptOk (normalize_response jsonLoads "q" ["A", "B"] none
      "\x7b\"trade_offs\": \" \"\x7d") = false :=
  ⟨rfl, rfl, rfl⟩

/-- C1 as amended: the normalizer can fail on ill-shaped decoded content,
but whenever it does return a response, the analysis map has exactly one
entry per requested option in request order, and every entry has
non-empty strengths, non-empty weaknesses and a non-empty explanation. -/
theorem C1_normalizer_guarantee (loads : String → Option PyVal)
    (raw : RawRequest) (req : ComparisonRequest) (rawText : String)
    (resp : ComparisonResponse)
    (_hreq : validateComparisonRequest raw = .ok req)
    (h : normalize_response loads req.question req.options req.context rawText
      = .ok resp) :
    resp.analysis.map Prod.fst = req.options ∧
    ∀ p ∈ resp.analysis,
      p.2.strengths ≠ [] ∧ p.2.weaknesses ≠ [] ∧ p.2.explanation ≠ "" := by
  unfold normalize_response at h
  obtain ⟨od, al, t, cn0, hod, hal, ht, hcn, hmk⟩ :=
    build_comparison_response_ok h
  obtain ⟨hq, hanaly, htrade, hcnv⟩ := mkComparisonResponse_ok hmk
  obtain ⟨hfst, hmem⟩ := buildAnalysisList_ok hal
  rw [hanaly]
  exact ⟨hfst, fun p hp => buildOptionAnalysis_ok (hmem p hp)⟩

/-- C1 amended witness at a concrete validated request and raw text. -/
theorem C1_normalizer_guarantee_witness :
    c1Resp.analysis.map Prod.fst = ["A", "B"] :=
  (C1_normalizer_guarantee jsonLoads ⟨"q", ["A", "B"], ["c"], none⟩
    ⟨"q", ["A", "B"], ["c"], none⟩ "free text" c1Resp rfl rfl).1

/-- C7: context notes are present only when the request supplied context
(absent context forces an absent field); and whenever the decoded data
omits `context_notes` or carries one of the sentinel values `null`,
`"null"`, `"None"`, the field stays absent — no placeholder is ever
synthesized for it. -/
theorem C7_context_notes (question : String) (options : List String)
    (analysisData : PyVal) (context : Option String)
    (resp : ComparisonResponse)
    (h : build_comparison_response question options analysisData context
      = .ok resp) :
    (context = none → resp.contextNotes = none) ∧
    (∀ kvs, analysisData = .obj kvs →
      (pyLookup kvs "context_notes" = none ∨
       pyLookup kvs "context_notes" = some .null ∨
       pyLookup kvs "context_notes" = some (.str "null") ∨
       pyLookup kvs "context_notes" = some (.str "None")) →
      resp.contextNotes = none) := by
  obtain ⟨od, al, t, cn0, hod, hal, ht, hcn, hmk⟩ :=
    build_comparison_response_ok h
  obtain ⟨hq, hanaly, htrade, hcnv⟩ := mkComparisonResponse_ok hmk
  have hcore : normalizeContextNotes cn0 = PyVal.null → resp.contextNotes = none := by
    intro hnull
    rw [hnull] at hcnv
    have : (Except.ok (none : Option String) : Except String (Option String)) =
        .ok resp.contextNotes := hcnv
    injection this with this
    exact this.symm
  constructor
  · intro hctx
    subst hctx
    have : (Except.ok PyVal.null : Except String PyVal) = .ok cn0 := hcn
    injection this with this
    subst this
    exact hcore rfl
  · intro kvs had hcase
    subst had
    cases context with
    | none =>
      have : (Except.ok PyVal.null : Except String PyVal) = .ok cn0 := hcn
      injection this with this
      subst this
      exact hcore rfl
    | some c =>
      have hval : (Except.ok ((pyLookup kvs "context_notes").getD .null) :
          Except String PyVal) = .ok cn0 := hcn
      injection hval with hval
      rcases hcase with hc | hc | hc | hc <;>
        (rw [hc] at hval) <;> subst hval <;> exact hcore rfl

/-- C7 witness: with context supplied and the decoded `context_notes`
equal to the string sentinel `"None"`, the response's context notes are
absent. -/
theorem C7_context_notes_witness : c7Resp.contextNotes = none :=
  (C7_context_notes "q" ["A", "B"] (.obj [("context_notes", .str "None")])
    (some "ctx") c7Resp rfl).2 [("context_notes", .str "None")] rfl
    (Or.inr (Or.inr (Or.inr rfl)))

/-- A character on which the predicate fails survives `dropWhile`. -/
theorem mem_dropWhile_of_mem {p : Char → Bool} {c : Char} (hc : p c = false) :
    ∀ {cs : List Char}, c ∈ cs → c ∈ cs.dropWhile p := by
  intro cs
  induction cs with
  | nil => intro h; cases h
  | cons a rest ih =>
    intro h
    rw [List.dropWhile_cons]
    by_cases ha : p a = true
    · rw [if_pos ha]
      rcases List.mem_cons.mp h with rfl | h
      · rw [hc] at ha; cases ha
      · exact ih h
    · rw [if_neg ha]
      exact h

/-- A string containing a non-whitespace character does not strip to
nothing. -/
theorem pyStripL_ne_nil {c : Char} {cs : List Char}
    (hc : pyIsSpace c = false) (hmem : c ∈ cs) : pyStripL cs ≠ [] := by
  unfold pyStripL
  intro hcontra
  have h1 : c ∈ cs.dropWhile pyIsSpace := mem_dropWhile_of_mem hc hmem
  have h2 : c ∈ (cs.dropWhile pyIsSpace).reverse := List.mem_reverse.mpr h1
  have h3 : c ∈ ((cs.dropWhile pyIsSpace).reverse.dropWhile pyIsSpace) :=
    mem_dropWhile_of_mem hc h2
  rw [List.reverse_eq_nil_iff.mp hcontra] at h3
  cases h3

/-- The generated placeholder explanation never strips to the empty
string, whatever the option name. -/
theorem pyStrip_explanationFallback_ne (option : String) :
    pyStrip (explanationFallback option) ≠ "" := by
  intro hcontra
  have hmem : '.' ∈ (explanationFallback option).data := by
    unfold explanationFallback
    rw [String.data_append]
    exact List.mem_append.mpr (Or.inr (by decide))
  have hne := @pyStripL_ne_nil '.' _ (by decide) hmem
  apply hne
  have hdata : (pyStrip (explanationFallback option)).data = "".data := by
    rw [hcontra]
  simpa [pyStrip] using hdata

/-- Building an option entry against an empty decoded options map yields
the full placeholder entry. -/
theorem buildOptionAnalysis_empty (option : String) :
    buildOptionAnalysis (.obj []) option = .ok (fallbackEntry option) := by
  have hex := pyStrip_explanationFallback_ne option
  have hs : validateStrListField "Strengths list cannot be empty"
      "Individual strengths cannot be empty" [.str strongFallback] =
      .ok [strongFallback] := rfl
  have hw : validateStrListField "Weaknesses list cannot be empty"
      "Individual weaknesses cannot be empty" [.str weakFallback] =
      .ok [weakFallback] := rfl
  simp only [buildOptionAnalysis, pyGet, pyLookup, List.reverse_nil, List.find?,
    Option.getD, ensureList, mkOptionAnalysis, hs, hw, strFieldValidator]
  rw [if_neg hex]
  rfl

/-- Assembling the analysis from an empty decoded options map yields one
placeholder entry per option, in order. -/
theorem buildAnalysisList_empty (options : List String) :
    buildAnalysisList (.obj []) options =
      .ok (options.map (fun o => (o, fallbackEntry o))) := by
  induction options with
  | nil => rfl
  | cons o rest ih =>
    unfold buildAnalysisList
    rw [buildOptionAnalysis_empty o, ih]
    rfl

/-- Assembling the response from the fixed parse-failure fallback
structure always succeeds: the fixed trade-offs message is kept, context
notes stay absent, and every requested option receives a placeholder
entry. -/
theorem build_comparison_response_fallback (question : String)
    (options : List String) (context : Option String) (hne : options ≠ []) :
    build_comparison_response question options fallbackParse context =
      .ok { question := question,
            analysis := options.map (fun o => (o, fallbackEntry o)),
            tradeOffs := "Analysis parsing failed. Please try again.",
            contextNotes := none } := by
  have h1 : pyGet fallbackParse "options" (.obj []) = .ok (.obj []) := rfl
  have h2 : pyGet fallbackParse "trade_offs" (.str tradeOffsFallback) =
      .ok (.str "Analysis parsing failed. Please try again.") := rfl
  have h3 : pyGet fallbackParse "context_notes" .null = .ok .null := rfl
  cases options with
  | nil => cases hne rfl
  | cons o rest =>
    cases context with
    | none =>
      simp only [build_comparison_response, h1, h2, h3, buildAnalysisList_empty,
        mkComparisonResponse, strFieldValidator, optionalStrFieldValidator,
        normalizeContextNotes, List.map, List.isEmpty]
      rw [if_neg (by decide : ¬ (pyStrip "Analysis parsing failed. Please try again." = ""))]
      rfl
    | some c =>
      simp only [build_comparison_response, h1, h2, h3, buildAnalysisList_empty,
        mkComparisonResponse, strFieldValidator, optionalStrFieldValidator,
        normalizeContextNotes, List.map, List.isEmpty]
      rw [if_neg (by decide : ¬ (pyStrip "Analysis parsing failed. Please try again." = ""))]
      rfl

/-- Success inversion of request validation: every field validated. -/
theorem validateComparisonRequest_ok {r : RawRequest} {req : ComparisonRequest}
    (h : validateComparisonRequest r = .ok req) :
    validateQuestionField r.question = .ok req.question ∧
    validateOptionsField r.options = .ok req.options ∧
    validateCriteriaField r.criteria = .ok req.criteria ∧
    req.context = r.context := by
  unfold validateComparisonRequest at h
  cases hq : validateQuestionField r.question <;>
    cases ho : validateOptionsField r.options <;>
      cases hc : validateCriteriaField r.criteria <;>
        rw [hq, ho, hc] at h
  all_goals cases h
  exact ⟨rfl, rfl, rfl, rfl⟩

/-- C2 counterexample: for a valid request and unrecoverable free-text
backend output, the endpoint does return 200 with the fixed
parsing-failure trade-offs message, but the analysis map is not empty —
it carries one placeholder entry per requested option. -/
theorem C2_counterexample :
    compare_endpoint .llm (analyze_options_llm jsonLoads
      (fun _ => .ok "I cannot produce JSON.") "q" ["A", "B"] none) =
      .success c1Resp ∧
    c1Resp.tradeOffs = "Analysis parsing failed. Please try again." ∧
    c1Resp.analysis.length = 2 :=
  ⟨rfl, rfl, rfl⟩

/-- C2 as amended: for every validated request whose backend output is
malformed free text from which no structure is recovered (the parse
falls back), the call returns 200 — never a 5xx — with the fixed
parsing-failure trade-offs message; the intermediate fallback structure
has an empty options map, while the response's analysis map carries one
placeholder entry per requested option (so it is non-empty). -/
theorem C2_fallback_response (loads : String → Option PyVal)
    (raw : RawRequest) (req : ComparisonRequest)
    (backend : Nat → Except String String) (rawText : String)
    (atype : AnalyzerType)
    (hreq : validateComparisonRequest raw = .ok req)
    (hbackend : backend 0 = .ok rawText)
    (hparse : parse_llm_response loads rawText = fallbackParse) :
    compare_endpoint atype (analyze_options_llm loads backend req.question
      req.options req.context) =
      .success { question := req.question,
                 analysis := req.options.map (fun o => (o, fallbackEntry o)),
                 tradeOffs := "Analysis parsing failed. Please try again.",
                 contextNotes := none } ∧
    outcomeStatus (compare_endpoint atype (analyze_options_llm loads backend
      req.question req.options req.context)) = 200 ∧
    req.options.map (fun o => (o, fallbackEntry o)) ≠ [] := by
  have hne : req.options ≠ [] := by
    obtain ⟨-, ho, -, -⟩ := validateComparisonRequest_ok hreq
    obtain ⟨hlen, -, -, hw⟩ := (validateOptionsField_ok_iff _ _).mp ho
    intro hcontra
    rw [hcontra] at hw
    have : raw.options.length = 0 := by
      have := congrArg List.length hw
      simpa using this.symm
    omega
  have hglr : (get_llm_response backend).1 = .ok rawText := by
    simp [get_llm_response, get_llm_response_loop, hbackend]
  have hana : analyze_options_llm loads backend req.question req.options
      req.context =
      build_comparison_response req.question req.options fallbackParse
        req.context := by
    unfold analyze_options_llm
    rw [hglr]
    show build_comparison_response req.question req.options
      (parse_llm_response loads rawText) req.context = _
    rw [hparse]
  rw [hana, build_comparison_response_fallback _ _ _ hne]
  refine ⟨rfl, rfl, ?_⟩
  simpa using hne

/-- C2 amended witness at a concrete validated request and free-text
backend output. -/
theorem C2_fallback_response_witness :
    outcomeStatus (compare_endpoint .llm (analyze_options_llm jsonLoads
      (fun _ => .ok "gibberish") "q" ["A", "B"] none)) = 200 :=
  (C2_fallback_response jsonLoads ⟨"q", ["A", "B"], ["c"], none⟩
    ⟨"q", ["A", "B"], ["c"], none⟩ (fun _ => .ok "gibberish") "gibberish"
    .llm rfl rfl rfl).2.1

/-- With any accumulator, `findIdx?` finds the first matching index. -/
theorem findIdx_q_first_aux {c : Char} :
    ∀ (cs : List Char) (start i : Nat), cs[i]? = some c →
      (∀ k, k < i → cs[k]? ≠ some c) →
      List.findIdx? (fun x => x = c) cs start = some (start + i) := by
  intro cs
  induction cs with
  | nil =>
    intro start i hi _
    simp at hi
  | cons a rest ih =>
    intro start i hi hmin
    rw [List.findIdx?_cons]
    by_cases ha : a = c
    · subst ha
      cases i with
      | zero => simp
      | succ n =>
        exact absurd (by simp : (a :: rest)[0]? = some a) (hmin 0 (Nat.succ_pos n))
    · rw [if_neg (by simpa using ha)]
      cases i with
      | zero =>
        rw [List.getElem?_cons_zero] at hi
        injection hi with hi
        exact absurd hi ha
      | succ n =>
        have hi' : rest[n]? = some c := by simpa using hi
        have hmin' : ∀ k, k < n → rest[k]? ≠ some c := by
          intro k hk
          have := hmin (k + 1) (by omega)
          simpa using this
        rw [ih (start + 1) n hi' hmin']
        congr 1
        omega

/-- The first occurrence characterizes `pyFindChar`. -/
theorem pyFindChar_eq_some {c : Char} {cs : List Char} {i : Nat}
    (hi : cs[i]? = some c) (hmin : ∀ k, k < i → cs[k]? ≠ some c) :
    pyFindChar cs c = some i := by
  unfold pyFindChar
  have := findIdx_q_first_aux cs 0 i hi hmin
  simpa using this

/-- Soundness: `findIdx?` only returns indices holding a matching element. -/
theorem findIdx_q_sound_aux {c : Char} :
    ∀ (cs : List Char) (start j : Nat),
      List.findIdx? (fun x => x = c) cs start = some j →
      start ≤ j ∧ cs[j - start]? = some c := by
  intro cs
  induction cs with
  | nil =>
    intro start j h
    simp at h
  | cons a rest ih =>
    intro start j h
    rw [List.findIdx?_cons] at h
    by_cases ha : a = c
    · rw [if_pos (by simpa using ha)] at h
      injection h with h
      subst h
      refine ⟨Nat.le_refl _, ?_⟩
      simp [ha]
    · rw [if_neg (by simpa using ha)] at h
      obtain ⟨h1, h2⟩ := ih (start + 1) j h
      refine ⟨by omega, ?_⟩
      have heq : j - start = (j - (start + 1)) + 1 := by omega
      rw [heq]
      simpa using h2

/-- Soundness of `pyFindChar`: the returned index holds the character. -/
theorem pyFindChar_sound {c : Char} {cs : List Char} {i : Nat}
    (h : pyFindChar cs c = some i) : cs[i]? = some c := by
  unfold pyFindChar at h
  have := (findIdx_q_sound_aux cs 0 i h).2
  simpa using this

/-- The last occurrence characterizes `pyRFindChar`. -/
theorem pyRFindChar_eq_some {c : Char} {cs : List Char} {j : Nat}
    (hj : cs[j]? = some c)
    (hmax : ∀ k, k < cs.length → j < k → cs[k]? ≠ some c) :
    pyRFindChar cs c = some j := by
  have hjlen : j < cs.length := by
    by_contra hcon
    rw [List.getElem?_eq_none (by omega)] at hj
    cases hj
  unfold pyRFindChar
  have hrev : cs.reverse[cs.length - 1 - j]? = some c := by
    rw [List.getElem?_reverse (by omega)]
    have heq : cs.length - 1 - (cs.length - 1 - j) = j := by omega
    rw [heq]
    exact hj
  have hmin : ∀ k, k < cs.length - 1 - j → cs.reverse[k]? ≠ some c := by
    intro k hk
    rw [List.getElem?_reverse (by omega)]
    apply hmax
    · omega
    · omega
  have hfind := findIdx_q_first_aux cs.reverse 0 (cs.length - 1 - j) hrev hmin
  rw [hfind]
  show some (cs.length - 1 - (0 + (cs.length - 1 - j))) = some j
  congr 1
  omega

/-- Absent character: `pyFindChar` returns none. -/
theorem pyFindChar_eq_none {c : Char} {cs : List Char} (h : c ∉ cs) :
    pyFindChar cs c = none := by
  unfold pyFindChar
  rw [List.findIdx?_eq_none_iff]
  intro x hx
  simp only [decide_eq_false_iff_not]
  rintro rfl
  exact h hx

/-- Absent character: `pyRFindChar` returns none. -/
theorem pyRFindChar_eq_none {c : Char} {cs : List Char} (h : c ∉ cs) :
    pyRFindChar cs c = none := by
  unfold pyRFindChar
  have hnone : List.findIdx? (fun x => x = c) cs.reverse = none := by
    rw [List.findIdx?_eq_none_iff]
    intro x hx
    simp only [decide_eq_false_iff_not]
    rintro rfl
    exact h (List.mem_reverse.mp hx)
  rw [hnone]

/-- The candidate slice starts with the character found at its left
index. -/
theorem drop_take_head {cs : List Char} {i j : Nat} {c : Char}
    (hij : i ≤ j) (hi : cs[i]? = some c) :
    ∃ t, (cs.drop i).take (j + 1 - i) = c :: t := by
  have h0 : (cs.drop i)[0]? = some c := by
    rw [List.getElem?_drop]
    simpa using hi
  cases hd : cs.drop i with
  | nil =>
    rw [hd] at h0
    cases h0
  | cons a t =>
    rw [hd] at h0
    rw [List.getElem?_cons_zero] at h0
    injection h0 with h0
    subst h0
    have heq : j + 1 - i = (j - i) + 1 := by omega
    rw [heq]
    exact ⟨t.take (j - i), rfl⟩

/-- Defensive cleanup keeps a leading opening brace in place. -/
theorem cleanup_cons_lbrace (t : List Char) :
    escBackslashes (replaceNewlines (lbraceChar :: t)) =
      lbraceChar :: escBackslashes (replaceNewlines t) := by
  unfold replaceNewlines
  rw [List.map_cons, if_neg (by decide : ¬ (lbraceChar = '\n'))]
  rw [escBackslashes]
  rw [if_neg (by decide : ¬ (lbraceChar = '\\'))]

/-- A JSON value parsed from input starting with an opening brace is an
object (or the parse fails). -/
theorem jsonValue_lbrace_obj (fuel : Nat) (rest : List Char) :
    ∀ {v : PyVal} {rem : List Char},
      jsonValue (fuel + 1) (lbraceChar :: rest) = some (v, rem) →
      ∃ kvs, v = .obj kvs := by
  intro v rem h
  rw [jsonValue] at h
  rw [show jsonSkipWs (lbraceChar :: rest) = lbraceChar :: rest from by
    unfold jsonSkipWs
    rw [List.dropWhile_cons, if_neg (by decide : ¬ (jsonIsWs lbraceChar = true))]] at h
  split at h
  · rename_i heq
    injection heq with h1 _
    cases h1
  · rename_i heq
    injection heq with h1 _
    cases h1
  · rename_i heq
    injection heq with h1 _
    cases h1
  · rename_i heq
    injection heq with h1 _
    cases h1
  · rename_i c rest2 heq
    injection heq with h1 h2
    subst h1
    subst h2
    rw [if_pos rfl] at h
    split at h
    · rename_i c2 rest3 _
      split at h
      · injection h with h1
        injection h1 with h1 _
        subst h1
        exact ⟨[], rfl⟩
      · cases hm : jsonMembers fuel (c2 :: rest3) with
        | none => rw [hm] at h; cases h
        | some p =>
          rw [hm] at h
          injection h with h1
          injection h1 with h1 _
          subst h1
          exact ⟨p.1, rfl⟩
    · cases h
  · rename_i heq
    cases heq

/-- A successful decode of a string whose first character is an opening
brace yields an object. -/
theorem jsonLoads_lbrace_obj {t : List Char} {v : PyVal}
    (h : jsonLoads (String.mk (lbraceChar :: t)) = some v) :
    ∃ kvs, v = .obj kvs := by
  unfold jsonLoads at h
  simp only [List.length_cons] at h
  cases hv : jsonValue (t.length + 1 + 1) (lbraceChar :: t) with
  | none =>
    rw [hv] at h
    cases h
  | some p =>
    rw [hv] at h
    have hv2 : jsonValue (t.length + 1 + 1) (lbraceChar :: t) = some (p.1, p.2) := by
      rw [hv]
    obtain ⟨kvs, hobj⟩ := jsonValue_lbrace_obj (t.length + 1) t hv2
    split at h
    · rename_i v2 rest2 heq
      injection heq with heq
      subst heq
      split at h
      · injection h with h
        subst h
        exact ⟨kvs, hobj⟩
      · cases h
    · cases h

/-- C9: the raw-text parse step is total — it always produces a dict —
and on every failure of brace extraction or decoding (no opening brace,
no closing brace, last closing brace before the first opening brace, or
an undecodable candidate) it returns exactly the fixed fallback
structure: empty options map, the fixed parsing-failure trade-offs
string, and null context notes. -/
theorem C9_parse_total (s : String) :
    pyValIsDict (parse_llm_response jsonLoads s) = true ∧
    (pyFindChar s.data lbraceChar = none →
      parse_llm_response jsonLoads s = fallbackParse) ∧
    (pyRFindChar s.data rbraceChar = none →
      parse_llm_response jsonLoads s = fallbackParse) ∧
    (∀ i j, pyFindChar s.data lbraceChar = some i →
      pyRFindChar s.data rbraceChar = some j → j < i →
      parse_llm_response jsonLoads s = fallbackParse) ∧
    (∀ i j, pyFindChar s.data lbraceChar = some i →
      pyRFindChar s.data rbraceChar = some j →
      jsonLoads (String.mk (escBackslashes (replaceNewlines
        ((s.data.drop i).take (j + 1 - i))))) = none →
      parse_llm_response jsonLoads s = fallbackParse) := by
  have hfall : fallbackParse = .obj [("options", .obj []),
      ("trade_offs", .str "Analysis parsing failed. Please try again."),
      ("context_notes", .null)] := rfl
  refine ⟨?_, ?_, ?_, ?_, ?_⟩
  · unfold parse_llm_response
    cases hf : pyFindChar s.data lbraceChar with
    | none => rfl
    | some i =>
      cases hr : pyRFindChar s.data rbraceChar with
      | none => rfl
      | some j =>
        show pyValIsDict (match jsonLoads (String.mk (escBackslashes (replaceNewlines
            ((s.data.drop i).take (j + 1 - i))))) with
          | some v => v
          | none => fallbackParse) = true
        cases hload : jsonLoads (String.mk (escBackslashes (replaceNewlines
            ((s.data.drop i).take (j + 1 - i))))) with
        | none => rfl
        | some v =>
          by_cases hij : i ≤ j
          · have hload2 := hload
            obtain ⟨t, ht⟩ := drop_take_head hij (pyFindChar_sound hf)
            rw [ht, cleanup_cons_lbrace] at hload2
            obtain ⟨kvs, hobj⟩ := jsonLoads_lbrace_obj hload2
            subst hobj
            rfl
          · have hcand : (s.data.drop i).take (j + 1 - i) = [] := by
              have h0 : j + 1 - i = 0 := by omega
              rw [h0, List.take_zero]
            rw [hcand] at hload
            have h2 : (none : Option PyVal) = some v := hload
            cases h2
  · intro hf
    unfold parse_llm_response
    rw [hf]
  · intro hr
    unfold parse_llm_response
    cases hf : pyFindChar s.data lbraceChar with
    | none => rfl
    | some i => rw [hr]
  · intro i j hf hr hij
    have hcand : (s.data.drop i).take (j + 1 - i) = [] := by
      have h0 : j + 1 - i = 0 := by omega
      rw [h0, List.take_zero]
    unfold parse_llm_response
    rw [hf, hr]
    show (match jsonLoads (String.mk (escBackslashes (replaceNewlines
        ((s.data.drop i).take (j + 1 - i))))) with
      | some v => v
      | none => fallbackParse) = fallbackParse
    rw [hcand]
    rfl
  · intro i j hf hr hload
    unfold parse_llm_response
    rw [hf, hr]
    show (match jsonLoads (String.mk (escBackslashes (replaceNewlines
        ((s.data.drop i).take (j + 1 - i))))) with
      | some v => v
      | none => fallbackParse) = fallbackParse
    rw [hload]

/-- C9 witness at concrete failing inputs: free text without braces, and
brace-bearing text whose candidate does not decode. -/
theorem C9_parse_total_witness :
    parse_llm_response jsonLoads "no structure here" = fallbackParse ∧
    parse_llm_response jsonLoads "x\x7dy\x7bz" = fallbackParse :=
  ⟨(C9_parse_total "no structure here").2.1 rfl,
   (C9_parse_total "x\x7dy\x7bz").2.2.2.1 3 1 rfl rfl (by omega)⟩

/-- C8: the parse stage takes the candidate from the first opening brace
through the last closing brace; when either brace is absent the parse is
treated as failed; otherwise the candidate is decoded after newlines are
turned into spaces and literal backslashes are doubled, and a decode
failure is non-fatal — it yields the fallback structure rather than an
error. -/
theorem C8_parse_extraction (loads : String → Option PyVal) (s : String) :
    ((lbraceChar ∉ s.data ∨ rbraceChar ∉ s.data) →
      parse_llm_response loads s = fallbackParse) ∧
    (∀ i j, s.data[i]? = some lbraceChar →
      (∀ k, k < i → s.data[k]? ≠ some lbraceChar) →
      s.data[j]? = some rbraceChar →
      (∀ k, k < s.data.length → j < k → s.data[k]? ≠ some rbraceChar) →
      parse_llm_response loads s =
        (match loads (String.mk (escBackslashes (replaceNewlines
            ((s.data.drop i).take (j + 1 - i))))) with
         | some v => v
         | none => fallbackParse)) := by
  constructor
  · intro h
    unfold parse_llm_response
    rcases h with h | h
    · rw [pyFindChar_eq_none h]
    · cases hf : pyFindChar s.data lbraceChar with
      | none => rfl
      | some i => rw [pyRFindChar_eq_none h]
  · intro i j hi hmin hj hmax
    unfold parse_llm_response
    rw [pyFindChar_eq_some hi hmin, pyRFindChar_eq_some hj hmax]

/-- C8 witness: at a concrete input the candidate between the braces is
undecodable, so the parse non-fatally yields the fallback; and a
brace-free input is treated as a failed parse. -/
theorem C8_parse_extraction_witness :
    parse_llm_response jsonLoads "x\x7by\x7dz" = fallbackParse ∧
    parse_llm_response jsonLoads "hello" = fallbackParse := by
  constructor
  · have h := (C8_parse_extraction jsonLoads "x\x7by\x7dz").2 1 3 (by decide)
      (by decide) (by decide) (by decide)
    exact h.trans rfl
  · exact (C8_parse_extraction jsonLoads "hello").1 (Or.inl (by decide))
